import Mathlib

/-!
Shallow embedding of `extract_audio.py` (vid2aud): a batch audio-extraction
orchestrator around an external downloader (yt-dlp) and transcoder (ffmpeg).
External effects (subprocess invocations, the filesystem, the in-process
downloader library) are modelled by explicit environment records that fix the
outcome of each effectful step; each Python function becomes a total Lean
function from its arguments and environment to its observable outcome
(returned value, reported title, printed error text, invoked command line).
-/

set_option autoImplicit false

namespace Vid2Aud

/-- An extraction request: the arguments of `extract_audio`
(`video_url`, `output_dir`, `audio_format`, `quality`). -/
structure ExtractionRequest where
  videoUrl : String
  outputDir : String
  audioFormat : String
  quality : String
deriving DecidableEq

/-- Outcome of the in-process library path (`yt_dlp.YoutubeDL(...).extract_info`):
either it succeeds and `info.get('title')` yields the given optional title
(`none` models an absent key), or it raises an exception with the given text. -/
inductive LibOutcome where
  | ok (title : Option String)
  | exc (msg : String)
deriving DecidableEq

/-- Outcome of the fallback `subprocess.run(cmd, check=True, ...)` call:
zero exit status with the given stdout, a `CalledProcessError` (nonzero exit
status) with the given text and stderr, or any other exception. -/
inductive ProcOutcome where
  | ok (stdout : String)
  | calledProcessError (msg stderr : String)
  | exc (msg : String)
deriving DecidableEq

/-- Environment of one `extract_audio` call: whether `os.path.exists(output_dir)`
holds, whether `os.makedirs(output_dir, exist_ok=True)` would raise (and with
what text), whether `import yt_dlp` succeeds, and the outcomes of the library
path and of the fallback process invocation. -/
structure ExtractEnv where
  outputDirExists : Bool
  mkdirError : Option String
  importOk : Bool
  lib : LibOutcome
  proc : ProcOutcome
deriving DecidableEq

/-- Observable outcome of `extract_audio`: the returned boolean, the media
title it reports on the library success path, the error text it prints on a
failure path, and the fallback command line it invokes (if it reaches the
command-line path). The Python function returns only the boolean; the other
fields record what it prints and executes. -/
structure ExtractionResult where
  success : Bool
  title : Option String
  errorMessage : Option String
  invokedCmd : Option (List String)
deriving DecidableEq

/-- The output template handed to the downloader:
`f"\x7boutput_dir\x7d/%(title)s.%(ext)s"`. -/
def outtmpl (output_dir : String) : String :=
  output_dir ++ "/%(title)s.%(ext)s"

/-- The fallback command line built at lines 109-116 of `extract_audio.py`. -/
def fallbackCmd (req : ExtractionRequest) : List String :=
  ["python3", "-m", "yt_dlp",
   "-x",
   "--audio-format", req.audioFormat,
   "--audio-quality", req.quality,
   "-o", outtmpl req.outputDir,
   req.videoUrl]

/-- `extract_audio(video_url, output_dir, audio_format, quality)`.
Mirrors the source: first the output directory is created when absent
(a `makedirs` exception yields `False`); then the library path is tried
(success reports `info.get('title', '未知')` and returns `True`; any
exception yields `False`); on `ImportError` the fallback command is run
(`CalledProcessError` or any other exception yields `False`). -/
def extract_audio (req : ExtractionRequest) (env : ExtractEnv) : ExtractionResult :=
  if !env.outputDirExists && env.mkdirError.isSome then
    { success := false, title := none,
      errorMessage := env.mkdirError.map (fun e => "创建输出目录失败: " ++ e),
      invokedCmd := none }
  else if env.importOk then
    match env.lib with
    | LibOutcome.ok t =>
        { success := true, title := some (t.getD "未知"),
          errorMessage := none, invokedCmd := none }
    | LibOutcome.exc e =>
        { success := false, title := none,
          errorMessage := some ("发生未知错误: " ++ e), invokedCmd := none }
  else
    match env.proc with
    | ProcOutcome.ok _ =>
        { success := true, title := none,
          errorMessage := none, invokedCmd := some (fallbackCmd req) }
    | ProcOutcome.calledProcessError e _ =>
        { success := false, title := none,
          errorMessage := some ("提取音频失败: " ++ e),
          invokedCmd := some (fallbackCmd req) }
    | ProcOutcome.exc e =>
        { success := false, title := none,
          errorMessage := some ("发生未知错误: " ++ e),
          invokedCmd := some (fallbackCmd req) }

/-- The batch tallies accumulated by `batch_extract_audio`:
`success_count`, `fail_count`, `failed_urls`. -/
structure BatchSummary where
  successCount : Nat
  failureCount : Nat
  failedUrls : List String
deriving DecidableEq

/-- `batch_extract_audio(video_urls, output_dir, audio_format, quality)`,
instrumented with the ordered list of URLs passed to `extract_audio` (the
invocation trace). The per-URL environment `env` fixes the outcome of each
item's external effects. Mirrors the source loop: each URL is handed to
`extract_audio`; a success increments `success_count`, a failure increments
`fail_count` and appends the URL to `failed_urls`. -/
def batch_extract_audio (urls : List String)
    (output_dir audio_format quality : String)
    (env : String → ExtractEnv) : BatchSummary × List String :=
  match urls with
  | [] => (⟨0, 0, []⟩, [])
  | url :: rest =>
      let r := extract_audio ⟨url, output_dir, audio_format, quality⟩ (env url)
      let q := batch_extract_audio rest output_dir audio_format quality env
      if r.success then
        (⟨q.1.successCount + 1, q.1.failureCount, q.1.failedUrls⟩, url :: q.2)
      else
        (⟨q.1.successCount, q.1.failureCount + 1, url :: q.1.failedUrls⟩, url :: q.2)

/-- The URLs of a batch whose extraction fails, in input order. -/
def failedOf (urls : List String) (output_dir audio_format quality : String)
    (env : String → ExtractEnv) : List String :=
  urls.filter (fun u =>
    !(extract_audio ⟨u, output_dir, audio_format, quality⟩ (env u)).success)

/-- Environment of `install_dependencies`: the exit statuses of
`which ffmpeg`, `pip3 show yt-dlp`, and `pip3 install yt-dlp`.
Each `subprocess.run(..., check=True)` call is modelled by whether it exits
with status zero (the invoked binaries are assumed present, so the only
exceptions that arise are `CalledProcessError` on nonzero status, and for
the install attempt any exception is caught, so a boolean suffices). -/
structure DepsEnv where
  ffmpegFound : Bool
  ytDlpShown : Bool
  installOk : Bool
deriving DecidableEq

/-- `check_ffmpeg()`: `subprocess.run(["which", "ffmpeg"], check=True)`
returns `True` on zero exit status, `False` on `CalledProcessError`. -/
def check_ffmpeg (env : DepsEnv) : Bool :=
  env.ffmpegFound

/-- `install_dependencies()`, returning the boolean result together with the
warning lines it prints. The ffmpeg check only prints a warning when the
transcoder is absent; the return value is decided solely by the yt-dlp
check and, when that fails, by the single installation attempt. -/
def install_dependencies (env : DepsEnv) : Bool × List String :=
  let warns := if check_ffmpeg env then [] else ["警告: ffmpeg 未安装"]
  if env.ytDlpShown then (true, warns)
  else if env.installOk then (true, warns)
  else (false, warns ++ ["安装 yt-dlp 失败"])

/-- A model of the directory tree seen by `os.makedirs(path, exist_ok=True)`
(line 71): the set of existing directories plus a predicate giving the paths
the OS would let this process create (its complement models permission
errors and invalid paths). -/
structure FileSys where
  dirs : List String
  creatable : String → Bool

/-- `os.makedirs(path, exist_ok=True)`: succeeds without change when the
directory already exists, creates it when the OS allows, and otherwise
raises (modelled by `none`). -/
def makedirs (fs : FileSys) (path : String) : Option FileSys :=
  if path ∈ fs.dirs then some fs
  else if fs.creatable path then some { fs with dirs := path :: fs.dirs }
  else none

/-- The parsed command-line arguments of `main`: `--url` and `--file` default
to `None` (`none`); `--output`, `--format`, `--quality` always carry a value
(defaults `"audio"`, `"mp3"`, `"128k"`). -/
structure Args where
  url : Option String
  file : Option String
  output : String
  fmt : String
  quality : String
deriving DecidableEq

/-- Python truthiness of an optional string (`if args.url:`): `None` and the
empty string are falsy. -/
def truthy : Option String → Bool
  | none => false
  | some s => !(s == "")

/-- Python `str.strip()`: removes leading and trailing whitespace. -/
def pyStrip (s : String) : String :=
  ⟨((s.data.dropWhile Char.isWhitespace).reverse.dropWhile
      Char.isWhitespace).reverse⟩

/-- The URL list built from the raw lines of the `--file` file:
`[line.strip() for line in f if line.strip()]`. -/
def urlsFrom (lines : List String) : List String :=
  (lines.map pyStrip).filter (fun s => !(s == ""))

/-- Environment of `main`: the dependency-checker environment, whether
`os.path.exists` holds of a path, the outcome of opening and reading a file
(`none` models an exception, `some lines` its raw lines), and the per-URL
extraction environment. -/
structure MainEnv where
  deps : DepsEnv
  pathExists : String → Bool
  readLines : String → Option (List String)
  extractEnv : String → ExtractEnv

/-- Observable outcome of one run of `main`: the process exit code, whether
the `--file` file was opened, and the ordered trace of URLs handed to
`extract_audio`. -/
structure MainObs where
  exitCode : Nat
  fileRead : Bool
  trace : List String
deriving DecidableEq

/-- `main()` after argument parsing. Mirrors the source: a failed
`install_dependencies` exits 1; a truthy `--url` runs one extraction and
falls off the end (exit 0) regardless of its result; otherwise a truthy
`--file` is checked for existence (exit 1 when absent), read (an exception
exits 1), filtered into URLs (none left exits 1), and handed to the batch
driver (exit 0); with neither, a usage hint is printed and the run exits 1. -/
def main (args : Args) (env : MainEnv) : MainObs :=
  if !(install_dependencies env.deps).1 then
    ⟨1, false, []⟩
  else if truthy args.url then
    let u := args.url.getD ""
    let _r := extract_audio ⟨u, args.output, args.fmt, args.quality⟩ (env.extractEnv u)
    ⟨0, false, [u]⟩
  else if truthy args.file then
    let f := args.file.getD ""
    if !(env.pathExists f) then ⟨1, false, []⟩
    else
      match env.readLines f with
      | none => ⟨1, true, []⟩
      | some lines =>
          let urls := urlsFrom lines
          if urls.isEmpty then ⟨1, true, []⟩
          else ⟨0, true,
                (batch_extract_audio urls args.output args.fmt args.quality
                  env.extractEnv).2⟩
  else ⟨1, false, []⟩

/-- The condition under which `main` exits 1, with Python truthiness of the
optional arguments (an empty-string `--url` or `--file` counts as absent). -/
def mainExitsOne (args : Args) (env : MainEnv) : Bool :=
  !(install_dependencies env.deps).1 ||
  (!truthy args.url &&
    (if truthy args.file then
      (let f := args.file.getD ""
       !(env.pathExists f) ||
       (match env.readLines f with
        | none => true
        | some lines => (urlsFrom lines).isEmpty))
     else true))

/-- The exit-1 condition exactly as the claim words it, read along the
executed path: dependency installation fails; or, with `--url` not supplied,
the `--file` path does not exist, the file cannot be read, or its URL list
is empty; or neither `--url` nor `--file` was supplied — where "supplied"
means the argument is present, whatever its value. -/
def claimExitsOne (args : Args) (env : MainEnv) : Bool :=
  !(install_dependencies env.deps).1 ||
  (!args.url.isSome &&
    (if args.file.isSome then
      (let f := args.file.getD ""
       !(env.pathExists f) ||
       (match env.readLines f with
        | none => true
        | some lines => (urlsFrom lines).isEmpty))
     else true))

/-- A concrete benign environment: dependencies in place, every path exists,
every file reads as a single URL line, every extraction succeeds with a
reported title. -/
def benignEnv : MainEnv where
  deps := ⟨true, true, true⟩
  pathExists := fun _ => true
  readLines := fun _ => some ["https://example.com/v1"]
  extractEnv := fun _ =>
    ⟨true, none, true, LibOutcome.ok (some "Title"), ProcOutcome.ok ""⟩

/-- A concrete request used by concrete-input theorems. -/
def cexReq : ExtractionRequest :=
  ⟨"https://example.com/v1", "audio", "mp3", "128k"⟩

/-- A concrete environment in which the in-process downloader call succeeds
but reports the empty string as the media title. -/
def emptyTitleEnv : ExtractEnv :=
  ⟨true, none, true, LibOutcome.ok (some ""), ProcOutcome.ok ""⟩

/-! Helper lemmas shared across claims. -/

/-- A string with a non-empty prefix is non-empty. -/
theorem append_ne_empty_left (s t : String) (h : 0 < s.length) : s ++ t ≠ "" := by
  intro hc
  have h2 : (s ++ t).length = 0 := by rw [hc]; rfl
  rw [String.length_append] at h2
  omega

/-! Theorems settling the claims. -/

/-- Claim C2: for every request and every environment (covering nonzero
process exit codes, library exceptions, and any other exception along the
executed path), `extract_audio` returns a result rather than propagating an
exception — the function is total by construction — and every failure result
carries a non-empty error text built from the underlying exception. -/
theorem extract_no_escape (req : ExtractionRequest) (env : ExtractEnv) :
    (extract_audio req env).success = true ∨
      ∃ e, (extract_audio req env).errorMessage = some e ∧ e ≠ "" := by
  unfold extract_audio
  split
  · next hm =>
    right
    rcases henv : env.mkdirError with _ | m
    · rw [henv] at hm; simp at hm
    · exact ⟨"创建输出目录失败: " ++ m, by simp [henv],
        append_ne_empty_left _ _ (by decide)⟩
  · split
    · cases env.lib with
      | ok t => left; rfl
      | exc e =>
          right
          exact ⟨"发生未知错误: " ++ e, rfl, append_ne_empty_left _ _ (by decide)⟩
    · cases env.proc with
      | ok s => left; rfl
      | calledProcessError e s =>
          right
          exact ⟨"提取音频失败: " ++ e, rfl, append_ne_empty_left _ _ (by decide)⟩
      | exc e =>
          right
          exact ⟨"发生未知错误: " ++ e, rfl, append_ne_empty_left _ _ (by decide)⟩

/-- Claim C5: the batch driver invokes the extractor exactly once per request,
strictly in input order, whatever the outcome of each item: its invocation
trace is the input list itself, so no failure aborts or skips a later item. -/
theorem batch_trace_order (output_dir audio_format quality : String)
    (env : String → ExtractEnv) (urls : List String) :
    (batch_extract_audio urls output_dir audio_format quality env).2 = urls := by
  induction urls with
  | nil => rfl
  | cons url rest ih =>
      unfold batch_extract_audio
      dsimp only
      split <;> simpa using ih

/-- Claim C6: `install_dependencies` returns `false` exactly when yt-dlp is
not already installed and the single installation attempt errors; the return
value never depends on whether ffmpeg is found, and a missing ffmpeg only
adds a warning line to the output. -/
theorem install_deps_return (env : DepsEnv) :
    ((install_dependencies env).1 = false ↔
      (env.ytDlpShown = false ∧ env.installOk = false)) ∧
    (∀ b, (install_dependencies ⟨b, env.ytDlpShown, env.installOk⟩).1 =
      (install_dependencies env).1) ∧
    ("警告: ffmpeg 未安装" ∈ (install_dependencies env).2 ↔
      env.ffmpegFound = false) := by
  rcases env with ⟨f, s, i⟩
  rcases f <;> rcases s <;> rcases i <;>
    refine ⟨by decide, fun b => by rcases b <;> rfl, by decide⟩

/-- Claim C8: directory creation (`os.makedirs(path, exist_ok=True)`) is
idempotent — whenever a first call on a path succeeds, a second call on the
resulting filesystem succeeds and changes nothing. -/
theorem makedirs_idempotent (fs fs' : FileSys) (p : String)
    (h : makedirs fs p = some fs') : makedirs fs' p = some fs' := by
  unfold makedirs at h ⊢
  split at h
  · next hm =>
    injection h with h
    subst h
    simp [hm]
  · split at h
    · next hc =>
      injection h with h
      subst h
      simp
    · exact absurd h (by simp)

/-- Witness for claim C8 at a concrete filesystem: creating `audio` in an
empty tree succeeds, and `makedirs` on the result is a no-op success. -/
theorem makedirs_idempotent_w :
    makedirs ⟨["audio"], fun _ => true⟩ "audio" =
      some ⟨["audio"], fun _ => true⟩ :=
  makedirs_idempotent ⟨[], fun _ => true⟩ _ "audio" rfl

/-- Counterexample to claim C1 as stated: when the downloader call succeeds
but reports an empty-string title, `extract_audio` returns success while the
title it carries is empty (`info.get('title', '未知')` keeps a present empty
title); so success does not guarantee a non-empty title. -/
theorem extract_title_empty_cex :
    (extract_audio cexReq emptyTitleEnv).success = true ∧
    (extract_audio cexReq emptyTitleEnv).title = some "" ∧
    ((extract_audio cexReq emptyTitleEnv).title.getD "unreported").length = 0 := by
  refine ⟨rfl, rfl, rfl⟩

/-- Claim C1 (amended): when the in-process downloader library call succeeds
(and directory creation did not fail first), `extract_audio` returns success
and carries as title the downloader's reported title, or the default `未知`
when the title is absent; that title is non-empty whenever the downloader's
reported title is absent or non-empty. -/
theorem extract_success_title_amended (req : ExtractionRequest)
    (env : ExtractEnv) (t : Option String)
    (hdir : (env.outputDirExists || env.mkdirError.isNone) = true)
    (himp : env.importOk = true) (hlib : env.lib = LibOutcome.ok t) :
    (extract_audio req env).success = true ∧
    (extract_audio req env).title = some (t.getD "未知") ∧
    (t ≠ some "" → t.getD "未知" ≠ "") := by
  have hm : (!env.outputDirExists && env.mkdirError.isSome) = false := by
    rcases h1 : env.outputDirExists <;> rcases h2 : env.mkdirError <;>
      simp_all
  refine ⟨?_, ?_, ?_⟩
  · unfold extract_audio; rw [hm, if_neg (by simp), himp, if_pos rfl, hlib]
  · unfold extract_audio; rw [hm, if_neg (by simp), himp, if_pos rfl, hlib]
  · intro hne
    cases t with
    | none => decide
    | some s =>
        intro hc
        exact hne (by simp_all)

/-- Witness for claim C1 (amended) at a concrete request and environment
where the library reports the title `Title`. -/
theorem extract_success_title_amended_w :
    ((⟨true, none, true, LibOutcome.ok (some "Title"), ProcOutcome.ok ""⟩ :
        ExtractEnv).outputDirExists || (none : Option String).isNone) = true ∧
    (extract_audio cexReq
      ⟨true, none, true, LibOutcome.ok (some "Title"), ProcOutcome.ok ""⟩).title =
      some "Title" :=
  ⟨rfl, (extract_success_title_amended cexReq
    ⟨true, none, true, LibOutcome.ok (some "Title"), ProcOutcome.ok ""⟩
    (some "Title") rfl rfl rfl).2.1⟩

/-- Claim C7: when the output directory is absent and its recursive creation
raises, `extract_audio` returns a failure result for that item whose error
message is the non-empty creation-failure text; the process does not crash
(the function is total and returns a result value). -/
theorem extract_mkdir_failure (req : ExtractionRequest) (env : ExtractEnv)
    (e : String) (hex : env.outputDirExists = false)
    (herr : env.mkdirError = some e) :
    (extract_audio req env).success = false ∧
    (extract_audio req env).errorMessage = some ("创建输出目录失败: " ++ e) ∧
    "创建输出目录失败: " ++ e ≠ "" := by
  have hm : (!env.outputDirExists && env.mkdirError.isSome) = true := by
    rw [hex, herr]; rfl
  refine ⟨?_, ?_, append_ne_empty_left _ _ (by decide)⟩
  · unfold extract_audio; rw [hm, if_pos rfl]
  · unfold extract_audio; rw [hm, if_pos rfl]; simp [herr]

/-- Witness for claim C7 at a concrete environment whose directory creation
raises a permission error. -/
theorem extract_mkdir_failure_w :
    ((⟨false, some "Permission denied", true, LibOutcome.ok none,
        ProcOutcome.ok ""⟩ : ExtractEnv).outputDirExists = false) ∧
    (extract_audio cexReq
      ⟨false, some "Permission denied", true, LibOutcome.ok none,
        ProcOutcome.ok ""⟩).success = false :=
  ⟨rfl, (extract_mkdir_failure cexReq
    ⟨false, some "Permission denied", true, LibOutcome.ok none,
      ProcOutcome.ok ""⟩ "Permission denied" rfl rfl).1⟩

/-- Claim C9: when `import yt_dlp` fails (and directory creation did not fail
first), `extract_audio` invokes the downloader as an external process; the
command line is exactly the source's list, and in particular contains `-x`,
`--audio-format` followed by the request's format, `--audio-quality` followed
by its quality, and `-o` followed by the templated output path. -/
theorem fallback_cmd_flags (req : ExtractionRequest) (env : ExtractEnv)
    (hdir : (env.outputDirExists || env.mkdirError.isNone) = true)
    (himp : env.importOk = false) :
    (extract_audio req env).invokedCmd = some (fallbackCmd req) ∧
    fallbackCmd req =
      ["python3", "-m", "yt_dlp", "-x", "--audio-format", req.audioFormat,
       "--audio-quality", req.quality, "-o",
       req.outputDir ++ "/%(title)s.%(ext)s", req.videoUrl] ∧
    "-x" ∈ fallbackCmd req := by
  have hm : (!env.outputDirExists && env.mkdirError.isSome) = false := by
    rcases h1 : env.outputDirExists <;> rcases h2 : env.mkdirError <;>
      simp_all
  refine ⟨?_, rfl, by simp [fallbackCmd]⟩
  unfold extract_audio
  rw [hm, if_neg (by simp), himp, if_neg (by simp)]
  cases env.proc <;> rfl

/-- Witness for claim C9 at a concrete environment where the library import
fails and the external process succeeds. -/
theorem fallback_cmd_flags_w :
    ((⟨true, none, false, LibOutcome.ok none, ProcOutcome.ok ""⟩ :
        ExtractEnv).outputDirExists || (none : Option String).isNone) = true ∧
    (extract_audio cexReq
      ⟨true, none, false, LibOutcome.ok none, ProcOutcome.ok ""⟩).invokedCmd =
      some (fallbackCmd cexReq) :=
  ⟨rfl, (fallback_cmd_flags cexReq
    ⟨true, none, false, LibOutcome.ok none, ProcOutcome.ok ""⟩ rfl rfl).1⟩

/-- The batch tallies are consistent: successes and failures add up to the
number of requests. -/
theorem batch_count_sum (output_dir audio_format quality : String)
    (env : String → ExtractEnv) (urls : List String) :
    (batch_extract_audio urls output_dir audio_format quality env).1.successCount +
      (batch_extract_audio urls output_dir audio_format quality env).1.failureCount =
      urls.length := by
  induction urls with
  | nil => rfl
  | cons url rest ih =>
      rcases hs : (extract_audio ⟨url, output_dir, audio_format, quality⟩
          (env url)).success <;>
        · simp [batch_extract_audio, hs]
          omega

/-- The failure tally of the batch is the number of failing requests. -/
theorem batch_fail_count_eq (output_dir audio_format quality : String)
    (env : String → ExtractEnv) (urls : List String) :
    (batch_extract_audio urls output_dir audio_format quality env).1.failureCount =
      (failedOf urls output_dir audio_format quality env).length := by
  induction urls with
  | nil => rfl
  | cons url rest ih =>
      rcases hs : (extract_audio ⟨url, output_dir, audio_format, quality⟩
          (env url)).success
      · simp [batch_extract_audio, failedOf, List.filter_cons, hs] at ih ⊢
        exact ih
      · simp [batch_extract_audio, failedOf, List.filter_cons, hs] at ih ⊢
        exact ih

/-- The failed-URL list of the batch is the failing requests in input order. -/
theorem batch_failed_eq (output_dir audio_format quality : String)
    (env : String → ExtractEnv) (urls : List String) :
    (batch_extract_audio urls output_dir audio_format quality env).1.failedUrls =
      failedOf urls output_dir audio_format quality env := by
  induction urls with
  | nil => rfl
  | cons url rest ih =>
      rcases hs : (extract_audio ⟨url, output_dir, audio_format, quality⟩
          (env url)).success
      · simp [batch_extract_audio, failedOf, List.filter_cons, hs] at ih ⊢
        exact ih
      · simp [batch_extract_audio, failedOf, List.filter_cons, hs] at ih ⊢
        exact ih

/-- Claim C3: on N requests of which exactly K fail, the batch driver tallies
`success_count = N - K`, `fail_count = K`, and `failed_urls` is exactly the
K failing URLs in input order; in particular the empty batch yields
`(0, 0, [])`. -/
theorem batch_summary_counts (output_dir audio_format quality : String)
    (env : String → ExtractEnv) (urls : List String) :
    ((batch_extract_audio urls output_dir audio_format quality env).1.failureCount =
      (failedOf urls output_dir audio_format quality env).length) ∧
    ((batch_extract_audio urls output_dir audio_format quality env).1.successCount =
      urls.length - (failedOf urls output_dir audio_format quality env).length) ∧
    ((batch_extract_audio urls output_dir audio_format quality env).1.failedUrls =
      failedOf urls output_dir audio_format quality env) ∧
    (batch_extract_audio [] output_dir audio_format quality env).1 = ⟨0, 0, []⟩ := by
  have h1 := batch_fail_count_eq output_dir audio_format quality env urls
  have h2 := batch_count_sum output_dir audio_format quality env urls
  exact ⟨h1, by omega, batch_failed_eq output_dir audio_format quality env urls, rfl⟩

/-- Arguments with `--url` supplied as the empty string and no `--file`. -/
def emptyUrlArgs : Args := ⟨some "", none, "audio", "mp3", "128k"⟩

/-- Arguments with `--url` supplied as the empty string and `--file` also
supplied. -/
def bothArgs : Args := ⟨some "", some "urls.txt", "audio", "mp3", "128k"⟩

/-- Arguments with a non-empty `--url` and a `--file` both supplied. -/
def urlAndFileArgs : Args :=
  ⟨some "https://example.com/v1", some "urls.txt", "audio", "mp3", "128k"⟩

/-- Counterexample to claim C4 as stated: with `--url` supplied as the empty
string and no `--file`, none of the claim's exit-1 conditions holds (both
arguments were read as "supplied or not"), yet the program exits 1, because
`if args.url:` tests Python truthiness and the empty string is falsy. -/
theorem main_exit_empty_url_cex :
    (main emptyUrlArgs benignEnv).exitCode = 1 ∧
    claimExitsOne emptyUrlArgs benignEnv = false := by
  refine ⟨rfl, rfl⟩

/-- Claim C4 (amended): the exit code is 1 exactly when dependency
installation fails, the `--file` path does not exist, the URL list file
cannot be read or holds no non-blank line, or neither `--url` nor `--file`
carries a non-empty value (Python truthiness: an empty-string argument
counts as absent); every other run — including runs with partial or total
extraction failures — exits 0. -/
theorem main_exit_code_amended (args : Args) (env : MainEnv) :
    (main args env).exitCode = if mainExitsOne args env then 1 else 0 := by
  unfold main mainExitsOne
  cases hi : (install_dependencies env.deps).1
  · simp [hi]
  · cases hu : truthy args.url
    · cases hf : truthy args.file
      · simp [hi, hu, hf]
      · cases he : env.pathExists (args.file.getD "")
        · simp [hi, hu, hf, he]
        · cases hr : env.readLines (args.file.getD "") with
          | none => simp [hi, hu, hf, he, hr]
          | some lines =>
              cases hl : (urlsFrom lines).isEmpty <;>
                simp [hi, hu, hf, he, hr, hl]
    · simp [hi, hu]

/-- Counterexample to claim C10 as stated: with both `--url` and `--file`
supplied but `--url` carrying the empty string, the URL list file is opened
and read, because `if args.url:` tests truthiness rather than presence. -/
theorem main_url_file_cex :
    bothArgs.url.isSome = true ∧ bothArgs.file.isSome = true ∧
    (main bothArgs benignEnv).fileRead = true := by
  refine ⟨rfl, rfl, rfl⟩

/-- Claim C10 (amended): whenever `--url` carries a non-empty value, the URL
list file is never opened or read, whatever `--file` says; and once
dependency checking succeeds, exactly the one URL is processed. -/
theorem main_url_precedence_amended (args : Args) (env : MainEnv)
    (hu : truthy args.url = true) :
    (main args env).fileRead = false ∧
    ((install_dependencies env.deps).1 = true →
      (main args env).trace = [args.url.getD ""]) := by
  unfold main
  cases hi : (install_dependencies env.deps).1
  · simp [hi]
  · simp [hi, hu]

/-- Witness for claim C10 (amended) at concrete arguments carrying both a
non-empty `--url` and a `--file`. -/
theorem main_url_precedence_amended_w :
    truthy urlAndFileArgs.url = true ∧
    (main urlAndFileArgs benignEnv).fileRead = false :=
  ⟨rfl, (main_url_precedence_amended urlAndFileArgs benignEnv rfl).1⟩

end Vid2Aud
